import Mathlib

/-!
Shallow embedding of `generate_premium_report.py`: a single-script generator
of a static market-research PDF.  The script's own code is modelled here;
the external libraries (reportlab, matplotlib) are modelled only at their
call boundary, as the effects the script requests from them.

Numeric values in the script are Python floats used only as literal
constants and simple arithmetic on them; they are embedded as rationals.
-/

/-- An RGB color with channels in `[0,1]`, as reportlab's `HexColor`
exposes them through `.red`, `.green`, `.blue`. -/
structure RGBColor where
  red : ℚ
  green : ℚ
  blue : ℚ
  deriving DecidableEq

/-- `colors.HexColor` applied to an `#RRGGBB` literal, with the three byte
values written in decimal. -/
def hexColor (r g b : ℕ) : RGBColor :=
  ⟨(r : ℚ) / 255, (g : ℚ) / 255, (b : ℚ) / 255⟩

namespace PremiumColors

def NAVY_DARK : RGBColor := hexColor 10 22 40
def NAVY : RGBColor := hexColor 27 40 56
def NAVY_LIGHT : RGBColor := hexColor 45 65 86
def GOLD : RGBColor := hexColor 201 162 39
def GOLD_LIGHT : RGBColor := hexColor 232 212 139
def TEAL : RGBColor := hexColor 8 145 178
def TEAL_LIGHT : RGBColor := hexColor 103 232 249
def WHITE : RGBColor := hexColor 255 255 255
def GRAY_100 : RGBColor := hexColor 248 250 252
def GRAY_200 : RGBColor := hexColor 226 232 240
def GRAY_300 : RGBColor := hexColor 203 213 225
def GRAY_500 : RGBColor := hexColor 100 116 139
def GRAY_700 : RGBColor := hexColor 51 65 85
def GRAY_900 : RGBColor := hexColor 15 23 42
def CHART_1 : RGBColor := hexColor 8 145 178
def CHART_2 : RGBColor := hexColor 201 162 39
def CHART_3 : RGBColor := hexColor 5 150 105
def CHART_4 : RGBColor := hexColor 124 58 237
def CHART_5 : RGBColor := hexColor 220 38 38

end PremiumColors

/-- reportlab paragraph alignment constants `TA_LEFT`, `TA_CENTER`,
`TA_RIGHT`, `TA_JUSTIFY`. -/
inductive TextAlignment where
  | taLeft
  | taCenter
  | taRight
  | taJustify
  deriving DecidableEq

/-- The fields of a reportlab `ParagraphStyle` that `get_premium_styles`
sets; fields a given style does not set carry the library defaults
(`leading 12`, `TA_LEFT`, zero spacing and indents). -/
structure ParagraphStyle where
  name : String
  fontName : String
  fontSize : ℚ
  textColor : RGBColor
  spaceAfter : ℚ
  spaceBefore : ℚ
  leading : ℚ
  alignment : TextAlignment
  leftIndent : ℚ
  rightIndent : ℚ
  bulletIndent : ℚ
  deriving DecidableEq

/-- The paragraph styles added by `get_premium_styles` (lines 331-481),
in the order they are added to the sample stylesheet.  The stylesheet's
built-in styles come from the library and are not part of this repository. -/
def get_premium_styles : List ParagraphStyle :=
  [ { name := "ExecTitle", fontName := "Helvetica-Bold", fontSize := 28,
      textColor := PremiumColors.NAVY_DARK, spaceAfter := 20, spaceBefore := 30,
      leading := 34, alignment := .taLeft,
      leftIndent := 0, rightIndent := 0, bulletIndent := 0 },
    { name := "SectionHeader", fontName := "Helvetica-Bold", fontSize := 22,
      textColor := PremiumColors.NAVY_DARK, spaceAfter := 15, spaceBefore := 25,
      leading := 28, alignment := .taLeft,
      leftIndent := 0, rightIndent := 0, bulletIndent := 0 },
    { name := "SubsectionHeader", fontName := "Helvetica-Bold", fontSize := 16,
      textColor := PremiumColors.NAVY, spaceAfter := 10, spaceBefore := 20,
      leading := 20, alignment := .taLeft,
      leftIndent := 0, rightIndent := 0, bulletIndent := 0 },
    { name := "H3Header", fontName := "Helvetica-Bold", fontSize := 13,
      textColor := PremiumColors.NAVY_LIGHT, spaceAfter := 8, spaceBefore := 15,
      leading := 16, alignment := .taLeft,
      leftIndent := 0, rightIndent := 0, bulletIndent := 0 },
    { name := "PremiumBody", fontName := "Helvetica", fontSize := 10,
      textColor := PremiumColors.GRAY_700, spaceAfter := 10, spaceBefore := 0,
      leading := 15, alignment := .taJustify,
      leftIndent := 0, rightIndent := 0, bulletIndent := 0 },
    { name := "BulletText", fontName := "Helvetica", fontSize := 10,
      textColor := PremiumColors.GRAY_700, spaceAfter := 5, spaceBefore := 0,
      leading := 14, alignment := .taLeft,
      leftIndent := 20, rightIndent := 0, bulletIndent := 10 },
    { name := "InsightText", fontName := "Helvetica-Oblique", fontSize := 11,
      textColor := PremiumColors.NAVY, spaceAfter := 5, spaceBefore := 5,
      leading := 15, alignment := .taLeft,
      leftIndent := 15, rightIndent := 15, bulletIndent := 0 },
    { name := "TableHeader", fontName := "Helvetica-Bold", fontSize := 9,
      textColor := PremiumColors.WHITE, spaceAfter := 0, spaceBefore := 0,
      leading := 12, alignment := .taCenter,
      leftIndent := 0, rightIndent := 0, bulletIndent := 0 },
    { name := "TableCell", fontName := "Helvetica", fontSize := 9,
      textColor := PremiumColors.GRAY_700, spaceAfter := 0, spaceBefore := 0,
      leading := 12, alignment := .taLeft,
      leftIndent := 0, rightIndent := 0, bulletIndent := 0 },
    { name := "TOCEntry", fontName := "Helvetica", fontSize := 11,
      textColor := PremiumColors.GRAY_700, spaceAfter := 8, spaceBefore := 0,
      leading := 16, alignment := .taLeft,
      leftIndent := 0, rightIndent := 0, bulletIndent := 0 },
    { name := "TOCSection", fontName := "Helvetica-Bold", fontSize := 12,
      textColor := PremiumColors.NAVY, spaceAfter := 5, spaceBefore := 15,
      leading := 16, alignment := .taLeft,
      leftIndent := 0, rightIndent := 0, bulletIndent := 0 },
    { name := "Caption", fontName := "Helvetica-Oblique", fontSize := 9,
      textColor := PremiumColors.GRAY_500, spaceAfter := 15, spaceBefore := 5,
      leading := 12, alignment := .taCenter,
      leftIndent := 0, rightIndent := 0, bulletIndent := 0 },
    { name := "Callout", fontName := "Helvetica-Bold", fontSize := 14,
      textColor := PremiumColors.NAVY, spaceAfter := 10, spaceBefore := 10,
      leading := 20, alignment := .taCenter,
      leftIndent := 30, rightIndent := 30, bulletIndent := 0 } ]

/-- A canvas drawing call issued by a flowable's `draw` method.  Boolean
flags mirror the `fill=`/`stroke=` arguments of the drawing API. -/
inductive DrawOp where
  | setFillColor (c : RGBColor)
  | setStrokeColor (c : RGBColor)
  | setFont (fontName : String) (size : ℚ)
  | setLineWidth (w : ℚ)
  | rect (x y w h : ℚ) (fill stroke : Bool)
  | roundRect (x y w h radius : ℚ) (fill stroke : Bool)
  | drawCentredString (x y : ℚ) (text : String)
  | drawString (x y : ℚ) (text : String)
  | line (x1 y1 x2 y2 : ℚ)
  | circle (x y r : ℚ) (fill stroke : Bool)
  deriving DecidableEq

/-- `canvas.stringWidth(text, fontName, fontSize)`: the font metric owned
by the rendering library, kept abstract. -/
def FontMetric : Type := String → String → ℚ → ℚ

/- ===========================================================================
GradientRect (lines 66-90)
=========================================================================== -/

inductive GradDirection where
  | horizontal
  | vertical
  deriving DecidableEq

structure GradientRect where
  width : ℚ
  height : ℚ
  color1 : RGBColor
  color2 : RGBColor
  direction : GradDirection
  deriving DecidableEq

/-- One of the rectangles painted by `GradientRect.draw`: its fill color
and the geometry handed to `canv.rect`. -/
structure Band where
  color : RGBColor
  x : ℚ
  y : ℚ
  width : ℚ
  height : ℚ
  deriving DecidableEq

/-- The 50 color bands painted by `GradientRect.draw` (`steps = 50`):
band `i` interpolates each channel as `color1 + (color2 - color1) * (i / steps)`
and covers `[i * extent / steps, i * extent / steps + extent / steps + 1)`
along the gradient axis. -/
def GradientRect.bands (g : GradientRect) : List Band :=
  (List.range 50).map fun (i : ℕ) =>
    let t : ℚ := (i : ℚ) / 50
    let col : RGBColor :=
      ⟨g.color1.red + (g.color2.red - g.color1.red) * t,
       g.color1.green + (g.color2.green - g.color1.green) * t,
       g.color1.blue + (g.color2.blue - g.color1.blue) * t⟩
    match g.direction with
    | .horizontal =>
        { color := col, x := (i : ℚ) * g.width / 50, y := 0,
          width := g.width / 50 + 1, height := g.height }
    | .vertical =>
        { color := col, x := 0, y := (i : ℚ) * g.height / 50,
          width := g.width, height := g.height / 50 + 1 }

/-- `GradientRect.draw`: for each band, set the fill color and paint the
rectangle with `fill=1, stroke=0`. -/
def GradientRect.drawOps (g : GradientRect) : List DrawOp :=
  g.bands.flatMap fun b =>
    [.setFillColor b.color, .rect b.x b.y b.width b.height true false]

/- ===========================================================================
KeyMetricBox (lines 92-140)
=========================================================================== -/

structure KeyMetricBox where
  value : String
  label : String
  box_width : ℚ
  box_height : ℚ
  accent_color : RGBColor
  deriving DecidableEq

/-- `KeyMetricBox.__init__` with its Python defaults
(`width=120, height=80, accent_color=None`, the latter replaced by
`PremiumColors.GOLD` via `accent_color or GOLD`). -/
def KeyMetricBox.make (value label : String) (width height : ℚ)
    (accent : Option RGBColor) : KeyMetricBox :=
  ⟨value, label, width, height, accent.getD PremiumColors.GOLD⟩

/-- `KeyMetricBox.wrap(availWidth, availHeight)`: reports the size fixed
at construction. -/
def KeyMetricBox.wrapSize (b : KeyMetricBox) (availWidth availHeight : ℚ) : ℚ × ℚ :=
  (b.box_width, b.box_height)

/-- Python `self.label.split()`: split on whitespace, discarding empty
pieces, so every word is nonempty and contains no whitespace. -/
def pyWords (s : String) : List String :=
  (s.split (fun c => c.isWhitespace)).filter (fun w => w ≠ "")

/-- Joining the words of a line with single spaces.  Because every word is
nonempty and space-free, the string `current_line + " " + word` built by
the Python loop equals `joinSp` of the corresponding word list
(`joinSp [] = ""`, and `joinSp (c ++ [w]) = joinSp c ++ " " ++ w` for
nonempty `c`). -/
def joinSp (ws : List String) : String :=
  String.intercalate " " ws

/-- The word-wrap loop of `KeyMetricBox.draw` (lines 123-135), with each
line kept as its list of words.  Arguments mirror the Python state: the
words still to place, `current_line`, and the committed `lines`.
The width test is `canv.stringWidth(test_line, "Helvetica", 9) < limit`
with `limit = box_width - 16`; on failure a nonempty current line is
committed and the word starts a new line. -/
def wrapWordsLoop (sw : FontMetric) (limit : ℚ) :
    List String → List String → List (List String) → List (List String)
  | [], current, lines =>
      if current = [] then lines else lines ++ [current]
  | w :: ws, current, lines =>
      if sw (joinSp (current ++ [w])) "Helvetica" 9 < limit then
        wrapWordsLoop sw limit ws (current ++ [w]) lines
      else
        wrapWordsLoop sw limit ws [w]
          (if current = [] then lines else lines ++ [current])

/-- The wrapped label lines of `KeyMetricBox.draw`, as word lists. -/
def wrapLabel (sw : FontMetric) (box_width : ℚ) (label : String) :
    List (List String) :=
  wrapWordsLoop sw (box_width - 16) (pyWords label) [] []

/-- The trailing loop of `KeyMetricBox.draw` (lines 137-140): draw each
line centred at `box_width / 2`, starting at `y = box_height - 55` and
stepping down by 12. -/
def drawLabelLines (x : ℚ) : List (List String) → ℚ → List DrawOp
  | [], _ => []
  | l :: ls, y => .drawCentredString x y (joinSp l) :: drawLabelLines x ls (y - 12)

/-- `KeyMetricBox.draw` (lines 105-140): background, accent bar, value,
then at most the first two wrapped label lines (`lines[:2]`). -/
def KeyMetricBox.drawOps (b : KeyMetricBox) (sw : FontMetric) : List DrawOp :=
  [.setFillColor PremiumColors.GRAY_100,
   .roundRect 0 0 b.box_width b.box_height 8 true false,
   .setFillColor b.accent_color,
   .rect 0 (b.box_height - 4) b.box_width 4 true false,
   .setFillColor PremiumColors.NAVY_DARK,
   .setFont "Helvetica-Bold" 20,
   .drawCentredString (b.box_width / 2) (b.box_height - 35) b.value,
   .setFillColor PremiumColors.GRAY_500,
   .setFont "Helvetica" 9]
  ++ drawLabelLines (b.box_width / 2)
      ((wrapLabel sw b.box_width b.label).take 2) (b.box_height - 55)

/- ===========================================================================
SectionDivider (lines 142-161) and ChapterHeader (lines 163-192)
=========================================================================== -/

structure SectionDivider where
  div_width : ℚ
  text : String
  deriving DecidableEq

/-- `SectionDivider.wrap(availWidth, availHeight)`. -/
def SectionDivider.wrapSize (d : SectionDivider) (availWidth availHeight : ℚ) : ℚ × ℚ :=
  (d.div_width, 30)

/-- `SectionDivider.draw`. -/
def SectionDivider.drawOps (d : SectionDivider) : List DrawOp :=
  [.setStrokeColor PremiumColors.GOLD,
   .setLineWidth 2,
   .line 0 15 d.div_width 15,
   .setFillColor PremiumColors.GOLD,
   .circle 0 15 4 true false,
   .circle d.div_width 15 4 true false]

structure ChapterHeader where
  number : ℕ
  title : String
  header_width : ℚ
  deriving DecidableEq

/-- `ChapterHeader.wrap(availWidth, availHeight)`. -/
def ChapterHeader.wrapSize (ch : ChapterHeader) (availWidth availHeight : ℚ) : ℚ × ℚ :=
  (ch.header_width, 60)

/-- `ChapterHeader.draw`. -/
def ChapterHeader.drawOps (ch : ChapterHeader) (sw : FontMetric) : List DrawOp :=
  [.setFillColor PremiumColors.NAVY,
   .roundRect 0 20 40 40 4 true false,
   .setFillColor PremiumColors.GOLD,
   .setFont "Helvetica-Bold" 20,
   .drawCentredString 20 32 (toString ch.number),
   .setFillColor PremiumColors.NAVY_DARK,
   .setFont "Helvetica-Bold" 22,
   .drawString 55 32 ch.title,
   .setStrokeColor PremiumColors.GOLD,
   .setLineWidth 3,
   .line 55 18 (55 + sw ch.title "Helvetica-Bold" 22) 18]

/- ===========================================================================
Chart generators (lines 487-705).  Each Python chart function takes no
parameters, builds a matplotlib figure from literal arrays, saves it into a
fresh in-memory buffer and returns the buffer.  The data each one plots is
embedded below; the rasterization itself belongs to matplotlib.
=========================================================================== -/

/-- One plotted data series: its legend label and its numeric values. -/
structure ChartSeries where
  label : String
  values : List ℚ
  deriving DecidableEq

/-- The literal content of one chart: title, category axis labels, any
extra textual labels, and the numeric series. -/
structure ChartData where
  title : String
  categories : List String
  extraLabels : List String
  series : List ChartSeries
  deriving DecidableEq

/-- `create_market_growth_chart` (lines 487-533): grouped bars per year. -/
def create_market_growth_chart : ChartData :=
  { title := "Antenna Market Growth Projections by Segment",
    categories := ["2024", "2025", "2026", "2027", "2028", "2029", "2030"],
    extraLabels := [],
    series :=
      [⟨"IoT Antennas", [1.2, 1.44, 1.73, 2.08, 2.50, 3.00, 3.58]⟩,
       ⟨"Drone/UAV Antennas", [1.2, 1.35, 1.52, 1.71, 1.93, 2.17, 2.44]⟩,
       ⟨"AMR Antennas", [0.5, 0.58, 0.67, 0.77, 0.89, 1.02, 1.17]⟩] }

/-- `create_regional_market_chart` (lines 535-561): pie of regional shares;
the single unnamed series holds the `sizes` array. -/
def create_regional_market_chart : ChartData :=
  { title := "Global Antenna Market by Region (2025)",
    categories := ["North America\n(35%)", "Europe\n(30%)", "Asia-Pacific\n(25%)",
                   "Emerging\nMarkets (10%)"],
    extraLabels := [],
    series := [⟨"", [35, 30, 25, 10]⟩] }

/-- `create_germany_market_chart` (lines 563-602): paired 2024 vs 2030 bars. -/
def create_germany_market_chart : ChartData :=
  { title := "Germany: Key Market Segments Growth",
    categories := ["Warehouse\nRobotics", "Industrial\nIoT", "Autonomous\nSystems",
                   "Commercial\nDrones"],
    extraLabels := [],
    series :=
      [⟨"2024", [0.82, 0.65, 0.45, 0.25]⟩,
       ⟨"2030/32 Projected", [2.34, 1.85, 1.20, 0.75]⟩] }

/-- `create_cagr_comparison_chart` (lines 604-634): horizontal CAGR bars;
the single unnamed series holds the `cagr_values` array. -/
def create_cagr_comparison_chart : ChartData :=
  { title := "Growth Rates Comparison: Key Market Segments",
    categories := ["IoT Antennas", "mmWave/Phased Array", "Germany Warehouse\nRobotics",
                   "Autonomous Navigation", "AMR Market", "Drone/UAV Antennas"],
    extraLabels := [],
    series := [⟨"", [20.0, 21.6, 16.4, 17.1, 15.1, 12.5]⟩] }

/-- `create_timeline_chart` (lines 636-675): four quarter boxes with phase
labels; purely textual. -/
def create_timeline_chart : ChartData :=
  { title := "2026 Implementation Roadmap",
    categories := ["Q1 2026", "Q2 2026", "Q3 2026", "Q4 2026"],
    extraLabels := ["Foundation", "Launch", "Scale", "Optimize"],
    series := [] }

/-- `create_portfolio_allocation_chart` (lines 677-705): donut of tier
shares; the single unnamed series holds the `sizes` array. -/
def create_portfolio_allocation_chart : ChartData :=
  { title := "Recommended Product Portfolio Allocation",
    categories := ["Tier A: Core\nHigh-Volume\n(70%)", "Tier B: Differentiated\nSolutions\n(20%)",
                   "Tier C: Emerging/\nSpecialized\n(10%)"],
    extraLabels := [],
    series := [⟨"", [70, 20, 10]⟩] }

/-- The six chart generator functions of the script, one name per
`create_*_chart` definition. -/
inductive ChartName where
  | marketGrowth
  | cagrComparison
  | regionalMarket
  | germanyMarket
  | portfolioAllocation
  | timeline
  deriving DecidableEq

/-- The six chart generators, in source order. -/
def allChartNames : List ChartName :=
  [.marketGrowth, .cagrComparison, .regionalMarket, .germanyMarket,
   .portfolioAllocation, .timeline]

/-- Dispatch from a chart name to its generator's data. -/
def chart_data : ChartName → ChartData
  | .marketGrowth => create_market_growth_chart
  | .cagrComparison => create_cagr_comparison_chart
  | .regionalMarket => create_regional_market_chart
  | .germanyMarket => create_germany_market_chart
  | .portfolioAllocation => create_portfolio_allocation_chart
  | .timeline => create_timeline_chart

/-- Invoking a chart generator at some point of the run.  The Python chart
functions take no arguments and reference nothing but their own literals,
so the ambient program state a call could in principle observe — the story
built so far and the style sheet — is passed here only to record that it is
ignored. -/
def chart_result {Story : Type} (story : Story) (styles : List ParagraphStyle)
    (c : ChartName) : ChartData :=
  chart_data c

/- ===========================================================================
Document assembler (lines 1645-1748) and entry point (lines 1754-1759)
=========================================================================== -/

/-- One element appended to the `story` list handed to `doc.build`.  The
output of each section builder `build_*` (lines 711-1639) is a fixed list
of paragraphs, tables and flowables whose content is fixed prose; it
enters the story as one `sectionBlocks` item named after the builder. -/
inductive StoryItem where
  | pageBreak
  | sectionBlocks (s : String)
  | spacer (width height : ℚ)
  | image (c : ChartName) (width height : ℚ)
  | caption (text : String)
  deriving DecidableEq

/-- An observable effect of the process on its surroundings, in the order
the script requests them.  `readEnv` and `network` are the effects a
Python process could perform but this script never does; they are listed
so their absence is a statement about the trace, not about the type. -/
inductive Effect where
  | makedirs (path : String)
  | renderChart (c : ChartName)
  | writeTempPng (c : ChartName)
  | docBuild (story : List StoryItem) (outputPath : String)
  | printLine (text : String)
  | readEnv (name : String)
  | network
  deriving DecidableEq

/-- `add_chart_to_story(story, chart_func, width, height, caption, styles)`
(lines 1645-1654): call the generator (`renderChart`), copy its buffer into
a `NamedTemporaryFile(suffix='.png', delete=False)` that is never removed
(`writeTempPng`), then append a spacer, the image, the caption in
`styles['Caption']`, and a closing spacer to the story. -/
def add_chart_to_story (st : List StoryItem × List Effect) (c : ChartName)
    (width height : ℚ) (capt : String) (styles : List ParagraphStyle) :
    List StoryItem × List Effect :=
  (st.1 ++ [.spacer 1 15, .image c width height, .caption capt, .spacer 1 10],
   st.2 ++ [.renderChart c, .writeTempPng c])

/-- `build_premium_report(output_path)` (lines 1656-1748): assemble the
story in the fixed source order, call `doc.build(story, ...)` once, print
the completion line, and return the output path.  The pair carries the
story and the effect trace of the call. -/
def build_premium_report (output_path : String) :
    (List StoryItem × List Effect) × String :=
  let styles := get_premium_styles
  let st : List StoryItem × List Effect := ([], [])
  let st := (st.1 ++ [.pageBreak], st.2)
  let st := (st.1 ++ [.sectionBlocks "build_toc"], st.2)
  let st := (st.1 ++ [.sectionBlocks "build_executive_summary"], st.2)
  let st := (st.1 ++ [.sectionBlocks "build_market_overview"], st.2)
  let st := add_chart_to_story st .marketGrowth 450 250
    "Figure 1: Antenna Market Growth Projections by Segment (2024-2030)" styles
  let st := (st.1 ++ [.pageBreak], st.2)
  let st := (st.1 ++ [.sectionBlocks "build_technology_trends"], st.2)
  let st := add_chart_to_story st .cagrComparison 450 250
    "Figure 2: Growth Rates Comparison Across Key Market Segments" styles
  let st := (st.1 ++ [.sectionBlocks "build_competitive_landscape"], st.2)
  let st := add_chart_to_story st .regionalMarket 350 230
    "Figure 3: Global Antenna Market Distribution by Region (2025)" styles
  let st := (st.1 ++ [.sectionBlocks "build_regional_insights"], st.2)
  let st := add_chart_to_story st .germanyMarket 450 250
    "Figure 4: Germany Key Market Segments Growth Projection" styles
  let st := (st.1 ++ [.sectionBlocks "build_strategic_recommendations"], st.2)
  let st := add_chart_to_story st .portfolioAllocation 300 300
    "Figure 5: Recommended Product Portfolio Allocation" styles
  let st := (st.1 ++ [.sectionBlocks "build_risk_analysis"], st.2)
  let st := (st.1 ++ [.sectionBlocks "build_implementation_timeline"], st.2)
  let st := add_chart_to_story st .timeline 480 180
    "Figure 6: 2026 Implementation Roadmap" styles
  let st := (st.1 ++ [.sectionBlocks "build_success_metrics"], st.2)
  let st := (st.1 ++ [.sectionBlocks "build_conclusion"], st.2)
  let st := (st.1 ++ [.sectionBlocks "build_references"], st.2)
  let st := (st.1, st.2 ++
    [.docBuild st.1 output_path,
     .printLine ("Premium report generated: " ++ output_path)])
  (st, output_path)

/-- `posixpath.join` for a non-empty left part, as `os.path.join` behaves
on the script's platform: the right part replaces everything if absolute,
otherwise it is appended with a separator unless one is already present.
Written over `String.data` so it evaluates by kernel reduction. -/
def posix_join (a b : String) : String :=
  if b.data.head? = some '/' then b
  else if a = "" ∨ a.data.getLast? = some '/' then a ++ b
  else a ++ "/" ++ b

/-- The hardcoded output directory of the `__main__` block (line 1755). -/
def output_dir : String := "/Users/philippholke/Crimson Sun/bane/output"

/-- The output path of the `__main__` block (line 1758). -/
def output_file : String :=
  posix_join output_dir "Global_IoT_Robotics_Antenna_Market_Strategy_2026_Premium.pdf"

/-- The story handed to `doc.build` by a run. -/
def premiumStory : List StoryItem :=
  ((build_premium_report output_file).1).1

/-- The effect trace of the `__main__` block: `os.makedirs` on the output
directory, then the effects of `build_premium_report(output_file)`.  The
process inputs — command line and environment — are passed to record that
the script consults neither: it defines no arguments, options or flags. -/
def run_main (argv : List String) (env : String → Option String) : List Effect :=
  Effect.makedirs output_dir :: ((build_premium_report output_file).1).2

/-- A filesystem entry left behind by the run. -/
inductive FileRef where
  | tempPng (c : ChartName)
  | reportPdf (path : String)
  deriving DecidableEq

/-- The files still on disk after a trace has executed: every
`NamedTemporaryFile(delete=False)` (the script contains no `os.remove`,
`os.unlink` or cleanup of any kind), and the PDF written by `doc.build`. -/
def files_remaining : List Effect → List FileRef
  | [] => []
  | .writeTempPng c :: es => .tempPng c :: files_remaining es
  | .docBuild _ p :: es => .reportPdf p :: files_remaining es
  | _ :: es => files_remaining es

/-- Whether an effect touches environment variables or the network. -/
def touchesEnvOrNet : Effect → Bool
  | .readEnv _ => true
  | .network => true
  | _ => false

/-- Executing a trace against library behavior `raises`, which assigns to
each library call the exception it raises, if any.  The script installs no
handler (`try`/`except` appears nowhere in the source), so the first
exception aborts the run: the result is the prefix of effects that
completed, and the uncaught exception if one occurred. -/
def run_effects (raises : Effect → Option String) :
    List Effect → List Effect × Option String
  | [] => ([], none)
  | e :: es =>
      match raises e with
      | some err => ([], some err)
      | none =>
          let done := run_effects raises es
          (e :: done.1, done.2)

/-- A whole run of the script under library behavior `raises`. -/
def run_with (raises : Effect → Option String) (argv : List String)
    (env : String → Option String) : List Effect × Option String :=
  run_effects raises (run_main argv env)

/- ===========================================================================
Derived observations used by the statements
=========================================================================== -/

/-- The claim-side interpolation formula: `color1 + t * (color2 - color1)`
per channel, to be compared with the code's `color1 + (color2 - color1) * t`. -/
def linearInterp (c1 c2 : RGBColor) (t : ℚ) : RGBColor :=
  ⟨c1.red + t * (c2.red - c1.red),
   c1.green + t * (c2.green - c1.green),
   c1.blue + t * (c2.blue - c1.blue)⟩

/-- Every extension of a line past its first word passed the width test:
each prefix of at least two words renders strictly below `limit` in
9pt Helvetica. -/
def lineOk (sw : FontMetric) (limit : ℚ) (l : List String) : Prop :=
  ∀ k, 2 ≤ k → k ≤ l.length → sw (joinSp (l.take k)) "Helvetica" 9 < limit

/-- A line was committed because appending the next line's first word
failed the width test. -/
def lineBreakAt (sw : FontMetric) (limit : ℚ) (a b : List String) : Prop :=
  ¬ sw (joinSp (a ++ b.take 1)) "Helvetica" 9 < limit

/-- The text arguments of the `drawCentredString` calls of a draw, in
order: what the box actually renders as centred text. -/
def centredTexts (ops : List DrawOp) : List String :=
  ops.filterMap fun op =>
    match op with
    | .drawCentredString _ _ t => some t
    | _ => none

/-- Story items that are a section builder's output or a chart image. -/
def isMainItem : StoryItem → Bool
  | .sectionBlocks _ => true
  | .image _ _ _ => true
  | _ => false

/-- Whether a story item is the image of chart `c`. -/
def isImageOf (c : ChartName) : StoryItem → Bool
  | .image c2 _ _ => decide (c2 = c)
  | _ => false

/-- Whether an effect is the layout engine's render call `doc.build`. -/
def isDocBuild : Effect → Bool
  | .docBuild _ _ => true
  | _ => false

/-- The paths written by `doc.build` calls in a trace. -/
def written_reports (trace : List Effect) : List String :=
  trace.filterMap fun e =>
    match e with
    | .docBuild _ p => some p
    | _ => none

/-- A library behavior where `os.makedirs` raises (the missing-directory
failure mode) and everything else succeeds. -/
def failing_makedirs : Effect → Option String := fun e =>
  match e with
  | .makedirs _ => some "FileNotFoundError"
  | _ => none

/-- An empty process environment. -/
def no_env : String → Option String := fun _ => none

/-- A concrete font metric for witnesses: width = number of characters. -/
def wdLen : FontMetric := fun s _ _ => (s.length : ℚ)

/- ===========================================================================
Helper lemmas
=========================================================================== -/

/-- The wrap loop places every word on exactly one line, in order:
flattening its output appends the pending words after the state. -/
theorem wrapWordsLoop_flatten (sw : FontMetric) (limit : ℚ) :
    ∀ (ws current : List String) (lines : List (List String)),
      (wrapWordsLoop sw limit ws current lines).flatten =
        lines.flatten ++ current ++ ws
  | [], current, lines => by
      by_cases h : current = [] <;> simp [wrapWordsLoop, h]
  | w :: ws, current, lines => by
      simp only [wrapWordsLoop]
      split_ifs with h1 h2
      · rw [wrapWordsLoop_flatten sw limit ws]
        simp
      · rw [wrapWordsLoop_flatten sw limit ws]
        simp [h2]
      · rw [wrapWordsLoop_flatten sw limit ws]
        simp

/-- Invariant of the wrap loop: committed lines are nonempty, each grew
only through successful width tests, and consecutive lines are separated
by a failed width test. -/
theorem wrapWordsLoop_invariant (sw : FontMetric) (limit : ℚ) :
    ∀ (ws current : List String) (lines : List (List String)),
      (current = [] → lines = []) →
      (∀ l ∈ lines, l ≠ [] ∧ lineOk sw limit l) →
      lineOk sw limit current →
      List.Chain' (lineBreakAt sw limit) (lines ++ [current]) →
      (∀ l ∈ wrapWordsLoop sw limit ws current lines, l ≠ [] ∧ lineOk sw limit l) ∧
      List.Chain' (lineBreakAt sw limit) (wrapWordsLoop sw limit ws current lines)
  | [], current, lines => by
      intro inv1 inv2 inv3 inv4
      simp only [wrapWordsLoop]
      by_cases h : current = []
      · simp only [h, if_true]
        rw [h] at inv1
        refine ⟨inv2, ?_⟩
        rcases List.chain'_append.mp inv4 with ⟨hl, _, _⟩
        exact hl
      · simp only [h, if_false]
        refine ⟨?_, inv4⟩
        intro l hl
        rcases List.mem_append.mp hl with h3 | h3
        · exact inv2 l h3
        · rcases List.mem_singleton.mp h3 with rfl
          exact ⟨h, inv3⟩
  | w :: ws, current, lines => by
      intro inv1 inv2 inv3 inv4
      simp only [wrapWordsLoop]
      split_ifs with h1 h2
      · -- accepted: the word joins the current line
        apply wrapWordsLoop_invariant sw limit ws (current ++ [w]) lines
        · intro hc
          exact absurd hc (by simp)
        · exact inv2
        · intro k hk2 hklen
          rcases lt_or_eq_of_le hklen with hlt | heq
          · have hle : k ≤ current.length := by
              simp only [List.length_append, List.length_singleton] at hlt
              omega
            rw [List.take_append_of_le_length hle]
            exact inv3 k hk2 hle
          · rw [heq, List.take_of_length_le (le_of_eq rfl)]
            exact h1
        · by_cases hc : current = []
          · have hl0 : lines = [] := inv1 hc
            subst hl0
            subst hc
            simp
          · rcases List.chain'_append.mp inv4 with ⟨hl, _, hlast⟩
            refine List.chain'_append.mpr ⟨hl, List.chain'_singleton _, ?_⟩
            intro x hx y hy
            simp only [List.head?_cons, Option.mem_def, Option.some.injEq] at hy
            subst hy
            have hx2 := hlast x hx current (by simp)
            have h1le : 1 ≤ current.length :=
              Nat.succ_le_of_lt (List.length_pos.mpr hc)
            unfold lineBreakAt at hx2 ⊢
            rwa [List.take_append_of_le_length h1le]
      · -- rejected with empty current line: first word of the label
        have hlines : lines = [] := inv1 h2
        subst hlines
        apply wrapWordsLoop_invariant sw limit ws [w] []
        · intro h; cases h
        · intro l hl; cases hl
        · intro k hk2 hklen
          exact absurd (hk2.trans hklen) (by simp)
        · simp
      · -- rejected: commit the current line, the word starts a new one
        apply wrapWordsLoop_invariant sw limit ws [w] (lines ++ [current])
        · intro h; cases h
        · intro l hl
          rcases List.mem_append.mp hl with h3 | h3
          · exact inv2 l h3
          · rcases List.mem_singleton.mp h3 with rfl
            exact ⟨h2, inv3⟩
        · intro k hk2 hklen
          exact absurd (hk2.trans hklen) (by simp)
        · refine List.chain'_append.mpr ⟨inv4, List.chain'_singleton _, ?_⟩
          intro x hx y hy
          rw [List.getLast?_concat] at hx
          simp only [Option.mem_def, Option.some.injEq] at hx hy
          subst hx
          have hy2 : [w] = y := by simpa using hy
          subst hy2
          unfold lineBreakAt
          simpa using h1

/-- The label-line loop draws exactly the joined lines it is given. -/
theorem centredTexts_drawLabelLines (x : ℚ) :
    ∀ (ls : List (List String)) (y : ℚ),
      centredTexts (drawLabelLines x ls y) = ls.map joinSp
  | [], _ => rfl
  | l :: ls, y => by
      simp [drawLabelLines, centredTexts, List.filterMap_cons] at *
      simpa [centredTexts] using centredTexts_drawLabelLines x ls (y - 12)

/-- A trace completes without error exactly when no library call raised. -/
theorem run_effects_ok_iff (raises : Effect → Option String) :
    ∀ l : List Effect,
      (run_effects raises l).2 = none ↔ ∀ e ∈ l, raises e = none
  | [] => by simp [run_effects]
  | e :: es => by
      simp only [run_effects]
      cases h : raises e with
      | some err => simp [h]
      | none => simp [h, run_effects_ok_iff raises es]

/-- Any error of a run is a library exception passed through verbatim. -/
theorem run_effects_error (raises : Effect → Option String) :
    ∀ (l : List Effect) (err : String),
      (run_effects raises l).2 = some err → ∃ e ∈ l, raises e = some err
  | [] => by simp [run_effects]
  | e :: es => by
      intro err
      simp only [run_effects]
      cases h : raises e with
      | some e2 =>
          intro hh
          simp only [Option.some.injEq] at hh
          subst hh
          exact ⟨e, by simp, h⟩
      | none =>
          intro hh
          simp only at hh
          obtain ⟨e2, he2, hr⟩ := run_effects_error raises es err hh
          exact ⟨e2, by simp [he2], hr⟩

/- ===========================================================================
Claim theorems
=========================================================================== -/

/-- Claim C1: `build_premium_report` concatenates the section builders'
content blocks and the chart images into one linear story in a single
fixed order — the cover page break first, then table of contents,
executive summary, market overview, growth chart, technology trends,
CAGR chart, competitive landscape, regional chart, regional insights,
Germany chart, strategic recommendations, portfolio chart, risk analysis,
implementation timeline, timeline chart, success metrics, conclusion and
references — and a run invokes the layout engine's render call
`doc.build` exactly once. -/
theorem assembler_fixed_order_single_build (argv : List String)
    (env : String → Option String) :
    premiumStory.head? = some .pageBreak ∧
    premiumStory.filter isMainItem =
      [.sectionBlocks "build_toc",
       .sectionBlocks "build_executive_summary",
       .sectionBlocks "build_market_overview",
       .image .marketGrowth 450 250,
       .sectionBlocks "build_technology_trends",
       .image .cagrComparison 450 250,
       .sectionBlocks "build_competitive_landscape",
       .image .regionalMarket 350 230,
       .sectionBlocks "build_regional_insights",
       .image .germanyMarket 450 250,
       .sectionBlocks "build_strategic_recommendations",
       .image .portfolioAllocation 300 300,
       .sectionBlocks "build_risk_analysis",
       .sectionBlocks "build_implementation_timeline",
       .image .timeline 480 180,
       .sectionBlocks "build_success_metrics",
       .sectionBlocks "build_conclusion",
       .sectionBlocks "build_references"] ∧
    (run_main argv env).countP isDocBuild = 1 :=
  ⟨rfl, rfl, rfl⟩

/-- Claim C2: the entry point takes no arguments, options or flags — the
trace of a run is the same function of nothing for every command line and
environment — and the single report written by `doc.build` always goes to
the hardcoded absolute path. -/
theorem entry_point_fixed_output_path (argv argv2 : List String)
    (env env2 : String → Option String) :
    output_file =
      "/Users/philippholke/Crimson Sun/bane/output/Global_IoT_Robotics_Antenna_Market_Strategy_2026_Premium.pdf" ∧
    run_main argv env = run_main argv2 env2 ∧
    written_reports (run_main argv env) = [output_file] :=
  ⟨by decide, rfl, rfl⟩

/-- Claim C3: no error handling exists anywhere in the program.  A run
succeeds exactly when no library call raises; any raised exception
reaches the caller verbatim — there is no recovery path and no retry —
and when `os.makedirs` raises (the missing-output-directory failure) the
run aborts with no report file on disk. -/
theorem uncaught_error_propagation (raises : Effect → Option String)
    (argv : List String) (env : String → Option String) :
    ((run_with raises argv env).2 = none ↔
      ∀ e ∈ run_main argv env, raises e = none) ∧
    (∀ err, (run_with raises argv env).2 = some err →
      ∃ e ∈ run_main argv env, raises e = some err) ∧
    (∀ err, raises (.makedirs output_dir) = some err →
      (run_with raises argv env).2 = some err ∧
      FileRef.reportPdf output_file ∉ files_remaining (run_with raises argv env).1) := by
  refine ⟨run_effects_ok_iff raises _, fun err => run_effects_error raises _ err, ?_⟩
  intro err h
  constructor
  · show (run_effects raises (Effect.makedirs output_dir :: _)).2 = some err
    simp [run_effects, h]
  · show FileRef.reportPdf output_file ∉
      files_remaining (run_effects raises (Effect.makedirs output_dir :: _)).1
    simp [run_effects, h, files_remaining]

/-- Witness for claim C3 at a concrete failing library: when `os.makedirs`
raises `FileNotFoundError`, the run terminates with that exception and the
report file is absent. -/
theorem uncaught_error_propagation_witness :
    (run_with failing_makedirs [] no_env).2 = some "FileNotFoundError" ∧
    FileRef.reportPdf output_file ∉
      files_remaining (run_with failing_makedirs [] no_env).1 :=
  (uncaught_error_propagation failing_makedirs [] no_env).2.2 "FileNotFoundError" rfl

/-- Counterexample to claim C4: a run leaves the temporary PNG of the
market growth chart on disk — `NamedTemporaryFile(delete=False)` is never
removed — and that file is not the report PDF, so state beyond the single
output artifact does persist. -/
theorem temp_files_counterexample :
    FileRef.tempPng ChartName.marketGrowth ∈ files_remaining (run_main [] no_env) ∧
    FileRef.tempPng ChartName.marketGrowth ≠ FileRef.reportPdf output_file :=
  ⟨by decide, by decide⟩

/-- Claim C4 as amended: a run persists exactly seven files — one
temporary PNG per chart, in generation order, plus the report PDF — and
reads or writes no environment variables and no network interfaces. -/
theorem run_persists_six_temp_pngs (argv : List String)
    (env : String → Option String) :
    files_remaining (run_main argv env) =
      [.tempPng .marketGrowth, .tempPng .cagrComparison, .tempPng .regionalMarket,
       .tempPng .germanyMarket, .tempPng .portfolioAllocation, .tempPng .timeline,
       .reportPdf output_file] ∧
    (run_main argv env).all (fun e => !touchesEnvOrNet e) = true :=
  ⟨rfl, rfl⟩

/-- Claim C5: `KeyMetricBox.draw` wraps its label by greedy line-fill.
Splitting the label on whitespace, every word lands on exactly one line
with order preserved (the flattening of the lines is the word list), no
line is empty, a word extends a line only while the candidate line's
9pt-Helvetica width stays strictly below `box_width - 16`, and each
committed line's junction with the next line's first word failed that
test. -/
theorem wrapLabel_greedy (sw : FontMetric) (bw : ℚ) (label : String) :
    (wrapLabel sw bw label).flatten = pyWords label ∧
    (∀ l ∈ wrapLabel sw bw label, l ≠ []) ∧
    (∀ l ∈ wrapLabel sw bw label, lineOk sw (bw - 16) l) ∧
    List.Chain' (lineBreakAt sw (bw - 16)) (wrapLabel sw bw label) := by
  have hinv := wrapWordsLoop_invariant sw (bw - 16) (pyWords label) [] []
    (fun _ => rfl) (by intro l hl; cases hl)
    (by intro k hk2 hklen; exact absurd (hk2.trans hklen) (by simp))
    (by simp)
  refine ⟨?_, fun l hl => (hinv.1 l hl).1, fun l hl => (hinv.1 l hl).2, hinv.2⟩
  have hflat := wrapWordsLoop_flatten sw (bw - 16) (pyWords label) [] []
  simpa [wrapLabel] using hflat

/-- Witness for claim C5 at a concrete metric and label: the wrap of a
width-28 box keeps every word once and in order. -/
theorem wrapLabel_greedy_witness :
    (wrapLabel wdLen 28 "alpha beta gamma").flatten = pyWords "alpha beta gamma" :=
  (wrapLabel_greedy wdLen 28 "alpha beta gamma").1

/-- Claim C6: `GradientRect.draw` paints exactly 50 bands; band `i` has
fill color `color1 + (i/50) * (color2 - color1)` per RGB channel and
covers the interval starting at `i * width/50` (horizontal) or
`i * height/50` (vertical) with extent `width/50 + 1` (respectively
`height/50 + 1`). -/
theorem gradientRect_linear_bands (g : GradientRect) :
    g.bands.length = 50 ∧
    ∀ i : Fin 50,
      g.bands[(i : ℕ)]? = some
        (match g.direction with
         | .horizontal =>
             { color := linearInterp g.color1 g.color2 (((i : ℕ) : ℚ) / 50),
               x := ((i : ℕ) : ℚ) * g.width / 50, y := 0,
               width := g.width / 50 + 1, height := g.height }
         | .vertical =>
             { color := linearInterp g.color1 g.color2 (((i : ℕ) : ℚ) / 50),
               x := 0, y := ((i : ℕ) : ℚ) * g.height / 50,
               width := g.width, height := g.height / 50 + 1 }) := by
  constructor
  · unfold GradientRect.bands
    rw [List.length_map, List.length_range]
  · intro i
    have hi : (i : ℕ) < 50 := i.isLt
    simp only [GradientRect.bands, List.getElem?_map, List.getElem?_range hi]
    cases g.direction <;>
      simp only [Option.map_some, Option.map_some', Option.some.injEq,
        Band.mk.injEq, linearInterp, RGBColor.mk.injEq] <;>
      and_intros <;> push_cast <;> ring

/-- Claim C7: there are exactly six chart generators, each a deterministic
constant of its hardcoded literal arrays — its result is independent of
the story built so far and of the style sheet, so every pair of calls
yields identical data — and the assembler inserts each chart's image into
the story exactly once. -/
theorem chart_generators_independent :
    (∀ (c : ChartName) (s1 s2 : List StoryItem) (st1 st2 : List ParagraphStyle),
        chart_result s1 st1 c = chart_result s2 st2 c) ∧
    allChartNames.length = 6 ∧
    allChartNames.Nodup ∧
    (∀ c : ChartName, c ∈ allChartNames) ∧
    (∀ c : ChartName, premiumStory.countP (isImageOf c) = 1) := by
  refine ⟨fun c s1 s2 st1 st2 => rfl, rfl, by decide, ?_, ?_⟩
  · intro c
    cases c <;> simp [allChartNames]
  · intro c
    cases c <;> rfl

/-- Claim C9: `KeyMetricBox.draw` renders at most two wrapped label lines:
the centred strings it draws are the value followed by the first at most
two lines (`lines[:2]`), so when the wrap yields more than two lines the
third and subsequent lines do not appear in the drawn output. -/
theorem keyMetricBox_two_label_lines (b : KeyMetricBox) (sw : FontMetric) :
    centredTexts (b.drawOps sw) =
      b.value :: ((wrapLabel sw b.box_width b.label).take 2).map joinSp ∧
    (centredTexts (b.drawOps sw)).length =
      1 + min 2 (wrapLabel sw b.box_width b.label).length := by
  have happ : ∀ l1 l2 : List DrawOp,
      centredTexts (l1 ++ l2) = centredTexts l1 ++ centredTexts l2 := by
    intro l1 l2
    exact List.filterMap_append l1 l2 _
  have h1 : centredTexts (b.drawOps sw) =
      b.value :: ((wrapLabel sw b.box_width b.label).take 2).map joinSp := by
    rw [KeyMetricBox.drawOps, happ, centredTexts_drawLabelLines]
    rfl
  refine ⟨h1, ?_⟩
  rw [h1]
  simp only [List.length_cons, List.length_map, List.length_take]
  omega

/-- Claim C10: every custom flowable that overrides `wrap` reports a size
fixed at construction: for all available widths and heights,
`KeyMetricBox.wrap` returns `(box_width, box_height)`,
`SectionDivider.wrap` returns `(div_width, 30)` and `ChapterHeader.wrap`
returns `(header_width, 60)`, independent of the arguments. -/
theorem custom_flowables_fixed_wrap (b : KeyMetricBox) (d : SectionDivider)
    (ch : ChapterHeader) (aw ah aw2 ah2 : ℚ) :
    b.wrapSize aw ah = (b.box_width, b.box_height) ∧
    d.wrapSize aw ah = (d.div_width, 30) ∧
    ch.wrapSize aw ah = (ch.header_width, 60) ∧
    b.wrapSize aw ah = b.wrapSize aw2 ah2 ∧
    d.wrapSize aw ah = d.wrapSize aw2 ah2 ∧
    ch.wrapSize aw ah = ch.wrapSize aw2 ah2 :=
  ⟨rfl, rfl, rfl, rfl, rfl, rfl⟩
